import Mathlib

/-!
Shallow embedding of the ros-mcp-server dispatcher (src/server.py).

The single source file defines one tool dispatcher, `handle_call_tool`,
routing twelve named operations over a shared roslibpy bridge connection.
We embed the dispatcher as a pure function over

  - an argument dictionary (`Args`, a string-keyed association list of
    JSON-like values `Val`),
  - a broker environment `RosEnv` giving the replies the bridge library
    would obtain from the broker for each blocking introspection call, and
  - a state `RosState` holding the broker-side parameter store and an
    observable trace of interaction events (envelopes handed to the
    connection, replies awaited, sleeps performed).

Exceptions raised inside an operation body are modelled by the `Except`
channel; the `try/except` wrapper of the Python function becomes the match
in `handle_call_tool` that converts an error into the uniform error text.
An operation name matching no branch falls off the chain and yields `none`,
exactly as the Python function returns `None` there.
-/

namespace RosMcp

/-- JSON-like runtime values: the payloads of the MCP argument dictionary
and of broker replies (Python str, float/int, bool, dict, list). -/
inductive Val where
  | str (s : String)
  | num (q : Rat)
  | bool (b : Bool)
  | obj (fields : List (String × Val))
  | arr (items : List Val)

/-- Rendering of a numeric value, following Python float printing for
integral values (str(5.0) is "5.0"). -/
def ratRender (q : Rat) : String :=
  if q.den = 1 then toString q.num ++ ".0" else toString q

mutual

/-- Python repr() of a value: strings quoted, dicts in braces, lists in
brackets. -/
def Val.reprPy : Val → String
  | .str s => "\x27" ++ s ++ "\x27"
  | .num q => ratRender q
  | .bool b => if b then "True" else "False"
  | .obj fs => "\x7b" ++ reprFields fs ++ "\x7d"
  | .arr xs => "[" ++ reprItems xs ++ "]"

/-- Python repr() of the bindings of a dict, comma separated. -/
def reprFields : List (String × Val) → String
  | [] => ""
  | [(k, v)] => "\x27" ++ k ++ "\x27: " ++ Val.reprPy v
  | (k, v) :: kv :: rest =>
      "\x27" ++ k ++ "\x27: " ++ Val.reprPy v ++ ", " ++ reprFields (kv :: rest)

/-- Python repr() of the items of a list, comma separated. -/
def reprItems : List Val → String
  | [] => ""
  | [v] => Val.reprPy v
  | v :: w :: rest => Val.reprPy v ++ ", " ++ reprItems (w :: rest)

end

/-- Python str() of a value, as used by f-string interpolation: a string
renders without quotes, everything else as its repr. -/
def Val.render : Val → String
  | .str s => s
  | .num q => ratRender q
  | .bool b => if b then "True" else "False"
  | .obj fs => "\x7b" ++ reprFields fs ++ "\x7d"
  | .arr xs => "[" ++ reprItems xs ++ "]"

/-- Python repr() of a list of strings, as f-strings render the topic,
node, service and parameter name lists returned by the bridge library. -/
def strListRepr (l : List String) : String :=
  "[" ++ String.intercalate ", " (l.map (fun s => "\x27" ++ s ++ "\x27")) ++ "]"

/-- Exceptions an operation body can raise: a missing dictionary key
(Python KeyError), a type error (asyncio.sleep on a non-number), or any
error raised by the bridge library while talking to the broker. -/
inductive RosError where
  | keyError (key : String)
  | typeError (m : String)
  | rosError (m : String)

/-- Python str(e) for each modelled exception; KeyError renders as the
quoted missing key. -/
def RosError.msg : RosError → String
  | .keyError k => "\x27" ++ k ++ "\x27"
  | .typeError m => m
  | .rosError m => m

/-- Wire-level envelopes handed to the shared broker connection, one per
blocking or fire-and-forget interaction performed by the dispatcher. -/
inductive Envelope where
  | getTopics
  | getTopicType (topic : Val)
  | publish (topic : Val) (msgType : Val) (data : Val)
  | getNodes
  | getNodeDetails (node : Val)
  | getServices
  | getServiceType (service : Val)
  | callService (service : Val) (srvType : Val) (args : Val)
  | getParamReq (name : Val)
  | setParamReq (name : Val) (value : Val)
  | getParams
  | subscribe (topic : Val)
  | unsubscribe (topic : Val)

/-- Observable events of one dispatcher call, in order: an envelope handed
to the connection, a blocking wait for the reply to an envelope, or an
asyncio.sleep of a given duration. -/
inductive Event where
  | sent (e : Envelope)
  | awaitedReply (e : Envelope)
  | slept (d : Rat)

/-- One MCP text content item, as constructed by every return of the
dispatcher: types.TextContent(type="text", text=...). -/
structure TextContent where
  type : String
  text : String

/-- Argument dictionaries: string-keyed association lists of values. -/
abbrev Args := List (String × Val)

/-- Dictionary lookup: first binding of the key, if any. -/
def lookupKey : List (String × Val) → String → Option Val
  | [], _ => none
  | (k, v) :: rest, key => if k = key then some v else lookupKey rest key

/-- Modelled from the spec: the broker-side parameter store (a named,
mutable key/value configuration store, section 3 and section 8 of the
spec); the repository only passes names and values through roslibpy to
rosapi, whose store is not part of src/. Setting overwrites the binding
of the key, keeping other bindings. -/
def setStore : List (String × Val) → String → Val → List (String × Val)
  | [], k, v => [(k, v)]
  | (k0, v0) :: rest, k, v =>
      if k0 = k then (k0, v) :: rest else (k0, v0) :: setStore rest k v

/-- Mutable world state threaded through a dispatcher call: the
broker-side parameter store and the trace of interaction events. -/
structure RosState where
  params : List (String × Val)
  trace : List Event

/-- Append one event to the trace. -/
def log (s : RosState) (e : Event) : RosState :=
  { s with trace := s.trace ++ [e] }

/-- A blocking request/response exchange through the bridge library: the
request envelope is handed to the connection and its reply is awaited. -/
def exchange (s : RosState) (e : Envelope) : RosState :=
  log (log s (.sent e)) (.awaitedReply e)

/-- The broker environment: the reply (or raised error) the bridge
library produces for each blocking call, and the messages that arrive on
a topic during a collection window of a given duration. -/
structure RosEnv where
  topics : Except RosError (List String)
  topicType : Val → Except RosError String
  nodes : Except RosError (List String)
  nodeDetails : Val → Except RosError Val
  services : Except RosError (List String)
  serviceType : Val → Except RosError String
  serviceCall : Val → Val → Val → Except RosError Val
  paramsList : Except RosError (List String)
  incoming : Val → Rat → List Val

/-- Duration asyncio.sleep actually sleeps for a given argument value:
numbers sleep their value, Python bools are ints (True sleeps 1 second),
anything else raises TypeError. -/
def sleepDur? : Val → Option Rat
  | .num q => some q
  | .bool b => some (if b then 1 else 0)
  | _ => none

/-- Python list slice messages[-5:]: the last 5 elements (all of them when
fewer than 5). -/
def lastN (n : Nat) (l : List α) : List α :=
  l.drop (l.length - n)

/-- Branch "list_topics" of the dispatcher (server.py lines 172-174). -/
def opListTopics (env : RosEnv) (s : RosState) : Except RosError String × RosState :=
  let s1 := exchange s .getTopics
  match env.topics with
  | .ok ts => (.ok ("Available topics: " ++ strListRepr ts), s1)
  | .error e => (.error e, s1)

/-- Branch "get_topic_info" of the dispatcher (server.py lines 176-179). -/
def opGetTopicInfo (env : RosEnv) (args : Args) (s : RosState) :
    Except RosError String × RosState :=
  match lookupKey args "topic_name" with
  | none => (.error (.keyError "topic_name"), s)
  | some tn =>
    let s1 := exchange s (.getTopicType tn)
    match env.topicType tn with
    | .ok ty => (.ok ("Topic " ++ tn.render ++ " type: " ++ ty), s1)
    | .error e => (.error e, s1)

/-- Branch "publish_message" of the dispatcher (server.py lines 181-188):
all three required arguments are read first, then the message is handed to
the connection and the success text returned at once; no broker reply is
consulted, so the branch takes no environment. -/
def opPublishMessage (args : Args) (s : RosState) :
    Except RosError String × RosState :=
  match lookupKey args "topic_name" with
  | none => (.error (.keyError "topic_name"), s)
  | some tn =>
  match lookupKey args "message_type" with
  | none => (.error (.keyError "message_type"), s)
  | some mt =>
  match lookupKey args "message_data" with
  | none => (.error (.keyError "message_data"), s)
  | some md =>
    (.ok ("Published message to " ++ tn.render),
      log s (.sent (.publish tn mt md)))

/-- Branch "list_nodes" of the dispatcher (server.py lines 190-192). -/
def opListNodes (env : RosEnv) (s : RosState) : Except RosError String × RosState :=
  let s1 := exchange s .getNodes
  match env.nodes with
  | .ok ns => (.ok ("Available nodes: " ++ strListRepr ns), s1)
  | .error e => (.error e, s1)

/-- Branch "get_node_info" of the dispatcher (server.py lines 194-198). -/
def opGetNodeInfo (env : RosEnv) (args : Args) (s : RosState) :
    Except RosError String × RosState :=
  match lookupKey args "node_name" with
  | none => (.error (.keyError "node_name"), s)
  | some nn =>
    let s1 := exchange s (.getNodeDetails nn)
    match env.nodeDetails nn with
    | .ok d => (.ok ("Node " ++ nn.render ++ " details: " ++ d.render), s1)
    | .error e => (.error e, s1)

/-- Branch "list_services" of the dispatcher (server.py lines 200-202). -/
def opListServices (env : RosEnv) (s : RosState) : Except RosError String × RosState :=
  let s1 := exchange s .getServices
  match env.services with
  | .ok ss => (.ok ("Available services: " ++ strListRepr ss), s1)
  | .error e => (.error e, s1)

/-- Branch "get_service_info" of the dispatcher (server.py lines 204-207). -/
def opGetServiceInfo (env : RosEnv) (args : Args) (s : RosState) :
    Except RosError String × RosState :=
  match lookupKey args "service_name" with
  | none => (.error (.keyError "service_name"), s)
  | some sn =>
    let s1 := exchange s (.getServiceType sn)
    match env.serviceType sn with
    | .ok ty => (.ok ("Service " ++ sn.render ++ " type: " ++ ty), s1)
    | .error e => (.error e, s1)

/-- Branch "call_service" of the dispatcher (server.py lines 209-217). -/
def opCallService (env : RosEnv) (args : Args) (s : RosState) :
    Except RosError String × RosState :=
  match lookupKey args "service_name" with
  | none => (.error (.keyError "service_name"), s)
  | some sn =>
  match lookupKey args "service_type" with
  | none => (.error (.keyError "service_type"), s)
  | some st =>
  match lookupKey args "service_args" with
  | none => (.error (.keyError "service_args"), s)
  | some sa =>
    let s1 := exchange s (.callService sn st sa)
    match env.serviceCall sn st sa with
    | .ok r => (.ok ("Service call result: " ++ r.render), s1)
    | .error e => (.error e, s1)

/-- Branch "get_param" of the dispatcher (server.py lines 219-223); the
value read is the current binding of the parameter in the broker-side
store (rendered "None" when unset, as Python prints it). -/
def opGetParam (args : Args) (s : RosState) : Except RosError String × RosState :=
  match lookupKey args "param_name" with
  | none => (.error (.keyError "param_name"), s)
  | some pn =>
    let s1 := exchange s (.getParamReq pn)
    let valueText :=
      match lookupKey s.params pn.render with
      | some v => v.render
      | none => "None"
    (.ok ("Parameter " ++ pn.render ++ " value: " ++ valueText), s1)

/-- Branch "set_param" of the dispatcher (server.py lines 225-230):
overwrites the binding of the parameter in the broker-side store. -/
def opSetParam (args : Args) (s : RosState) : Except RosError String × RosState :=
  match lookupKey args "param_name" with
  | none => (.error (.keyError "param_name"), s)
  | some pn =>
  match lookupKey args "param_value" with
  | none => (.error (.keyError "param_value"), s)
  | some pv =>
    let s1 := exchange s (.setParamReq pn pv)
    let s2 := { s1 with params := setStore s1.params pn.render pv }
    (.ok ("Set parameter " ++ pn.render ++ " to " ++ pv.render), s2)

/-- Branch "list_params" of the dispatcher (server.py lines 232-234). -/
def opListParams (env : RosEnv) (s : RosState) : Except RosError String × RosState :=
  let s1 := exchange s .getParams
  match env.paramsList with
  | .ok ps => (.ok ("Available parameters: " ++ strListRepr ps), s1)
  | .error e => (.error e, s1)

/-- Branch "subscribe_topic" of the dispatcher (server.py lines 236-255):
reads the topic name, takes the timeout with default 5.0, subscribes an
ephemeral listener, sleeps for the window, unsubscribes, and formats
either the count with the last 5 messages or the no-message text. -/
def opSubscribeTopic (env : RosEnv) (args : Args) (s : RosState) :
    Except RosError String × RosState :=
  match lookupKey args "topic_name" with
  | none => (.error (.keyError "topic_name"), s)
  | some tn =>
    let timeoutVal := (lookupKey args "timeout").getD (.num 5)
    let s1 := log s (.sent (.subscribe tn))
    match sleepDur? timeoutVal with
    | none => (.error (.typeError "an integer is required"), s1)
    | some q =>
      let ms := env.incoming tn q
      let s2 := log (log s1 (.slept q)) (.sent (.unsubscribe tn))
      match ms with
      | [] =>
        (.ok ("No messages received from " ++ tn.render ++ " within "
          ++ timeoutVal.render ++ " seconds"), s2)
      | _ :: _ =>
        (.ok ("Received " ++ toString ms.length ++ " messages from "
          ++ tn.render ++ ": " ++ Val.reprPy (.arr (lastN 5 ms))), s2)

/-- Body of the dispatcher: the if/elif chain on the operation name inside
the try block of handle_call_tool (server.py lines 172-255). A name
matching no branch yields none, as in the Python source where control
falls off the chain. -/
def opText (env : RosEnv) (name : String) (args : Args) (s : RosState) :
    Option (Except RosError String × RosState) :=
  if name = "list_topics" then some (opListTopics env s)
  else if name = "get_topic_info" then some (opGetTopicInfo env args s)
  else if name = "publish_message" then some (opPublishMessage args s)
  else if name = "list_nodes" then some (opListNodes env s)
  else if name = "get_node_info" then some (opGetNodeInfo env args s)
  else if name = "list_services" then some (opListServices env s)
  else if name = "get_service_info" then some (opGetServiceInfo env args s)
  else if name = "call_service" then some (opCallService env args s)
  else if name = "get_param" then some (opGetParam args s)
  else if name = "set_param" then some (opSetParam args s)
  else if name = "list_params" then some (opListParams env s)
  else if name = "subscribe_topic" then some (opSubscribeTopic env args s)
  else none

/-- The dispatcher handle_call_tool (server.py lines 169-258): each branch
returns one TextContent with type "text"; an exception anywhere in the
body is caught by the surrounding try/except and converted to the uniform
error text carrying the operation name and str(e); an unmatched name
returns None. -/
def handle_call_tool (env : RosEnv) (name : String) (args : Args) (s : RosState) :
    Option (List TextContent) × RosState :=
  match opText env name args s with
  | none => (none, s)
  | some (.ok t, s1) => (some [TextContent.mk "text" t], s1)
  | some (.error e, s1) =>
      (some [TextContent.mk "text" ("Error executing " ++ name ++ ": " ++ e.msg)], s1)

/-- The twelve operation names advertised by handle_list_tools
(server.py lines 15-167), in the order of the dispatch chain. -/
def supportedOps : List String :=
  ["list_topics", "get_topic_info", "publish_message", "list_nodes",
   "get_node_info", "list_services", "get_service_info", "call_service",
   "get_param", "set_param", "list_params", "subscribe_topic"]

/-- Required argument names of each operation, from the inputSchema
required arrays of handle_list_tools (server.py lines 15-167). -/
def requiredArgs : String → List String
  | "get_topic_info" => ["topic_name"]
  | "publish_message" => ["topic_name", "message_type", "message_data"]
  | "get_node_info" => ["node_name"]
  | "get_service_info" => ["service_name"]
  | "call_service" => ["service_name", "service_type", "service_args"]
  | "get_param" => ["param_name"]
  | "set_param" => ["param_name", "param_value"]
  | "subscribe_topic" => ["topic_name"]
  | _ => []

/-- Eight concrete messages, arriving in this order. -/
def eightMsgs : List Val :=
  [.num 1, .num 2, .num 3, .num 4, .num 5, .num 6, .num 7, .num 8]

/-- A concrete broker environment used to exercise the dispatcher: eight
messages arrive on every subscribed topic during every window. -/
def envEight : RosEnv where
  topics := .ok ["/rosout"]
  topicType := fun _ => .ok "std_msgs/String"
  nodes := .ok ["/talker"]
  nodeDetails := fun _ => .ok (.obj [])
  services := .ok ["/rosapi/topics"]
  serviceType := fun _ => .ok "rosapi/Topics"
  serviceCall := fun _ _ _ => .ok (.obj [])
  paramsList := .ok []
  incoming := fun _ _ => eightMsgs

/-- A concrete broker environment on which no topic message ever arrives. -/
def envQuiet : RosEnv where
  topics := .ok []
  topicType := fun _ => .ok "std_msgs/String"
  nodes := .ok []
  nodeDetails := fun _ => .ok (.obj [])
  services := .ok []
  serviceType := fun _ => .ok "rosapi/Topics"
  serviceCall := fun _ _ _ => .ok (.obj [])
  paramsList := .ok []
  incoming := fun _ _ => []

/-- Concrete arguments of a subscribe_topic call that omits the timeout. -/
def argsSubDefault : Args := [("topic_name", .str "/chat")]

/-- Concrete arguments of a subscribe_topic call with timeout 2.0. -/
def argsSubTimed : Args := [("topic_name", .str "/chat"), ("timeout", .num 2)]

/-- Concrete arguments of a publish_message call. -/
def argsPub : Args :=
  [("topic_name", .str "/cmd"), ("message_type", .str "std_msgs/String"),
   ("message_data", .obj [("data", .str "hi")])]

/-- Concrete arguments of a set_param call binding x to the string 5. -/
def argsSetX : Args := [("param_name", .str "x"), ("param_value", .str "5")]

/-- Concrete arguments of a get_param call reading x. -/
def argsGetX : Args := [("param_name", .str "x")]

/-- Modelled from the spec: the Correlation Table of the bridge client
(section 4.3 of the spec). The repository delegates request correlation
to the external roslibpy library, which is not under src/, so the table
is modelled from the words of the spec: a map from outstanding request
identifiers to single-assignment result slots. -/
abbrev CorrTable := List (Nat × Option Val)

/-- Modelled from the spec: register the given identifiers as outstanding
requests, each with an empty result slot. -/
def mkPending (ids : List Nat) : CorrTable :=
  ids.map (fun i => (i, none))

/-- Modelled from the spec: single assignment of a result slot — an
already-filled slot keeps its first value (late or duplicate frames are
no-ops). -/
def fillSlot : Option Val → Val → Option Val
  | none, v => some v
  | some w, _ => some w

/-- Modelled from the spec: resolve(identifier, payload) delivers the
payload to the waiter registered under exactly this identifier; unknown
identifiers are an idempotent no-op. -/
def resolveEntry : CorrTable → Nat → Val → CorrTable
  | [], _, _ => []
  | (i, slot) :: rest, j, v =>
      if i = j then (i, fillSlot slot v) :: rest
      else (i, slot) :: resolveEntry rest j v

/-- Modelled from the spec: deliver a batch of correlated responses to
the table in their arrival order. -/
def deliver (t : CorrTable) (resps : List (Nat × Val)) : CorrTable :=
  resps.foldl (fun t2 r => resolveEntry t2 r.1 r.2) t

/-- Result slot registered under an identifier, if the identifier is
outstanding. -/
def slotOf : CorrTable → Nat → Option (Option Val)
  | [], _ => none
  | (i, slot) :: rest, j => if i = j then some slot else slotOf rest j

/-- C9: an operation name outside the twelve supported operations matches
no branch of the dispatch chain, so handle_call_tool returns no content
at all (None, not a text result) and leaves the state untouched: the
uniform text-result shape does not hold at this edge of the interface. -/
theorem unknown_op_returns_none (env : RosEnv) (args : Args) (s : RosState)
    (name : String) (hname : name ∉ supportedOps) :
    handle_call_tool env name args s = (none, s) := by
  simp only [supportedOps, List.mem_cons, List.not_mem_nil, or_false, not_or] at hname
  obtain ⟨h1, h2, h3, h4, h5, h6, h7, h8, h9, h10, h11, h12⟩ := hname
  simp [handle_call_tool, opText, h1, h2, h3, h4, h5, h6, h7, h8, h9, h10, h11, h12]

/-- Witness for the unknown-operation theorem at the name frobnicate. -/
theorem unknown_op_returns_none_witness :
    "frobnicate" ∉ supportedOps ∧
      handle_call_tool envEight "frobnicate" [] ⟨[], []⟩ = (none, ⟨[], []⟩) :=
  ⟨by decide, unknown_op_returns_none envEight [] ⟨[], []⟩ "frobnicate" (by decide)⟩

/-- C1: for each of the twelve supported operation names and every
argument dictionary, broker environment and state, handle_call_tool
returns exactly one text content item; whenever the operation body raised
an exception, the returned text is the uniform error text carrying the
operation name and the human-readable cause str(e). The function is total
with its error channel closed by the final match, so no exception raised
inside a body propagates out. -/
theorem supported_op_uniform_result (env : RosEnv) (name : String) (args : Args)
    (s : RosState) (hname : name ∈ supportedOps) :
    ∃ txt : String,
      (handle_call_tool env name args s).1 = some [TextContent.mk "text" txt] ∧
      ∀ e : RosError, ∀ s1 : RosState,
        opText env name args s = some (.error e, s1) →
          txt = "Error executing " ++ name ++ ": " ++ e.msg := by
  have hsome : opText env name args s ≠ none := by
    simp only [supportedOps] at hname
    fin_cases hname <;> simp [opText]
  rcases h : opText env name args s with _ | ⟨r, s1⟩
  · exact absurd h hsome
  rcases r with e | t
  · refine ⟨"Error executing " ++ name ++ ": " ++ e.msg, ?_, ?_⟩
    · simp [handle_call_tool, h]
    · intro e2 s2 h2
      simp only [Option.some_inj, Prod.mk.injEq, Except.error.injEq] at h2
      rw [h2.1]
  · refine ⟨t, ?_, ?_⟩
    · simp [handle_call_tool, h]
    · intro e s2 h2
      simp at h2

/-- Witness for the uniform-result theorem at the name list_topics. -/
theorem supported_op_uniform_result_witness :
    "list_topics" ∈ supportedOps ∧
      ∃ txt : String,
        (handle_call_tool envEight "list_topics" [] ⟨[], []⟩).1 =
          some [TextContent.mk "text" txt] ∧
        ∀ e : RosError, ∀ s1 : RosState,
          opText envEight "list_topics" [] ⟨[], []⟩ = some (.error e, s1) →
            txt = "Error executing " ++ "list_topics" ++ ": " ++ e.msg :=
  ⟨by decide, supported_op_uniform_result envEight "list_topics" [] ⟨[], []⟩ (by decide)⟩

/-- Reading a key back from the store right after setting it yields the
value just written. -/
theorem lookupKey_setStore (st : List (String × Val)) (k : String) (v : Val) :
    lookupKey (setStore st k v) k = some v := by
  induction st with
  | nil => simp [setStore, lookupKey]
  | cons kv rest ih =>
    rcases kv with ⟨k0, v0⟩
    by_cases h : k0 = k
    · simp [setStore, lookupKey, h]
    · simp [setStore, lookupKey, h, ih]

/-- C2: a subscribe_topic call whose window ends with a non-empty message
sequence ms reports the full count ms.length (even when more than 5
arrived) together with the slice lastN 5 ms; that slice is a suffix of ms
kept in arrival order (oldest of the 5 first) of length min 5 ms.length,
so when fewer than 5 arrived it is all of ms. -/
theorem subscribe_nonempty_reports_count_and_last5
    (env : RosEnv) (args : Args) (s : RosState) (tn : Val) (q : Rat) (ms : List Val)
    (htn : lookupKey args "topic_name" = some tn)
    (hq : sleepDur? ((lookupKey args "timeout").getD (.num 5)) = some q)
    (hms : env.incoming tn q = ms) (hne : ms ≠ []) :
    (handle_call_tool env "subscribe_topic" args s).1 =
      some [TextContent.mk "text"
        ("Received " ++ toString ms.length ++ " messages from " ++ tn.render
          ++ ": " ++ Val.reprPy (.arr (lastN 5 ms)))] ∧
    ms.take (ms.length - 5) ++ lastN 5 ms = ms ∧
    (lastN 5 ms).length = min 5 ms.length := by
  refine ⟨?_, List.take_append_drop _ _, ?_⟩
  · rcases hms2 : ms with _ | ⟨m, rest⟩
    · exact absurd hms2 hne
    · rw [hms2] at hms
      simp [handle_call_tool, opText, opSubscribeTopic, htn, hq, hms, hms2]
  · simp only [lastN, List.length_drop]
    omega

/-- Witness for the non-empty subscription read-out at eight messages. -/
theorem subscribe_nonempty_witness :
    envEight.incoming (.str "/chat") 2 = eightMsgs ∧
    ((handle_call_tool envEight "subscribe_topic" argsSubTimed ⟨[], []⟩).1 =
      some [TextContent.mk "text"
        ("Received " ++ toString eightMsgs.length ++ " messages from "
          ++ Val.render (.str "/chat") ++ ": " ++ Val.reprPy (.arr (lastN 5 eightMsgs)))] ∧
      eightMsgs.take (eightMsgs.length - 5) ++ lastN 5 eightMsgs = eightMsgs ∧
      (lastN 5 eightMsgs).length = min 5 eightMsgs.length) :=
  ⟨rfl, subscribe_nonempty_reports_count_and_last5 envEight argsSubTimed ⟨[], []⟩
    (.str "/chat") 2 eightMsgs rfl rfl rfl (List.cons_ne_nil _ _)⟩

/-- C3: a subscribe_topic call whose window ends with zero messages
returns the success-shaped text stating that no messages were received
within the requested timeout window, and the branch result is ok, never
error: the zero-message outcome is a valid non-error terminal state. -/
theorem subscribe_zero_messages_not_error
    (env : RosEnv) (args : Args) (s : RosState) (tn : Val) (q : Rat)
    (htn : lookupKey args "topic_name" = some tn)
    (hq : sleepDur? ((lookupKey args "timeout").getD (.num 5)) = some q)
    (hms : env.incoming tn q = []) :
    (handle_call_tool env "subscribe_topic" args s).1 =
      some [TextContent.mk "text"
        ("No messages received from " ++ tn.render ++ " within "
          ++ ((lookupKey args "timeout").getD (.num 5)).render ++ " seconds")] ∧
    ∀ e : RosError, ∀ s1 : RosState,
      opText env "subscribe_topic" args s ≠ some (.error e, s1) := by
  constructor
  · simp [handle_call_tool, opText, opSubscribeTopic, htn, hq, hms]
  · intro e s1 hcontra
    simp [opText, opSubscribeTopic, htn, hq, hms] at hcontra

/-- Witness for the zero-message subscription outcome on a quiet broker. -/
theorem subscribe_zero_messages_witness :
    envQuiet.incoming (.str "/chat") 2 = [] ∧
    ((handle_call_tool envQuiet "subscribe_topic" argsSubTimed ⟨[], []⟩).1 =
      some [TextContent.mk "text"
        ("No messages received from " ++ Val.render (.str "/chat") ++ " within "
          ++ Val.render ((lookupKey argsSubTimed "timeout").getD (.num 5)) ++ " seconds")] ∧
      ∀ e : RosError, ∀ s1 : RosState,
        opText envQuiet "subscribe_topic" argsSubTimed ⟨[], []⟩ ≠ some (.error e, s1)) :=
  ⟨rfl, subscribe_zero_messages_not_error envQuiet argsSubTimed ⟨[], []⟩
    (.str "/chat") 2 rfl rfl rfl⟩

/-- C8: a subscribe_topic call whose arguments omit the timeout key sleeps
for the default 5.0 time units: the emitted trace is subscribe, a sleep of
duration 5, unsubscribe. -/
theorem subscribe_default_timeout
    (env : RosEnv) (args : Args) (s : RosState) (tn : Val)
    (htn : lookupKey args "topic_name" = some tn)
    (hto : lookupKey args "timeout" = none) :
    (handle_call_tool env "subscribe_topic" args s).2.trace =
      s.trace ++ [.sent (.subscribe tn), .slept 5, .sent (.unsubscribe tn)] := by
  rcases hms : env.incoming tn 5 with _ | ⟨m, rest⟩ <;>
    simp [handle_call_tool, opText, opSubscribeTopic, htn, hto, hms, sleepDur?, log]

/-- Witness for the default window duration on a call without timeout. -/
theorem subscribe_default_timeout_witness :
    lookupKey argsSubDefault "timeout" = none ∧
    (handle_call_tool envEight "subscribe_topic" argsSubDefault ⟨[], []⟩).2.trace =
      ([] : List Event) ++
        [.sent (.subscribe (.str "/chat")), .slept 5, .sent (.unsubscribe (.str "/chat"))] :=
  ⟨rfl, subscribe_default_timeout envEight argsSubDefault ⟨[], []⟩ (.str "/chat") rfl rfl⟩

/-- C10: a subscribe_topic call that reaches its collection window (the
timeout value is accepted by asyncio.sleep, so nothing raises) sends the
unsubscribe for its ephemeral listener before returning, on both the
zero-message and the non-empty path: the trace is always subscribe,
sleep, unsubscribe, whatever the broker delivered. -/
theorem subscribe_unsubscribes_before_return
    (env : RosEnv) (args : Args) (s : RosState) (tn : Val) (q : Rat)
    (htn : lookupKey args "topic_name" = some tn)
    (hq : sleepDur? ((lookupKey args "timeout").getD (.num 5)) = some q) :
    (handle_call_tool env "subscribe_topic" args s).2.trace =
      s.trace ++ [.sent (.subscribe tn), .slept q, .sent (.unsubscribe tn)] := by
  rcases hms : env.incoming tn q with _ | ⟨m, rest⟩ <;>
    simp [handle_call_tool, opText, opSubscribeTopic, htn, hq, hms, log]

/-- Witness for the listener teardown on the zero-message path. -/
theorem subscribe_unsubscribes_witness :
    lookupKey argsSubTimed "topic_name" = some (.str "/chat") ∧
    (handle_call_tool envQuiet "subscribe_topic" argsSubTimed ⟨[], []⟩).2.trace =
      ([] : List Event) ++
        [.sent (.subscribe (.str "/chat")), .slept 2, .sent (.unsubscribe (.str "/chat"))] :=
  ⟨rfl, subscribe_unsubscribes_before_return envQuiet argsSubTimed ⟨[], []⟩
    (.str "/chat") 2 rfl rfl⟩

/-- C5: publish_message with its three required arguments present hands
exactly one publish envelope to the connection and returns its success
text at once: the trace it appends holds no awaited reply and no sleep,
and both result and state are the same for every broker environment (env
does not occur on the right of the equation), so no broker acknowledgment
or response frame is waited for. -/
theorem publish_fire_and_forget
    (env : RosEnv) (args : Args) (s : RosState) (tn mt md : Val)
    (h1 : lookupKey args "topic_name" = some tn)
    (h2 : lookupKey args "message_type" = some mt)
    (h3 : lookupKey args "message_data" = some md) :
    handle_call_tool env "publish_message" args s =
      (some [TextContent.mk "text" ("Published message to " ++ tn.render)],
        { s with trace := s.trace ++ [.sent (.publish tn mt md)] }) ∧
    (∀ pe : Envelope,
      Event.awaitedReply pe ∉
        (handle_call_tool env "publish_message" args s).2.trace.drop s.trace.length) ∧
    ∀ d : Rat,
      Event.slept d ∉
        (handle_call_tool env "publish_message" args s).2.trace.drop s.trace.length := by
  have hh : handle_call_tool env "publish_message" args s =
      (some [TextContent.mk "text" ("Published message to " ++ tn.render)],
        { s with trace := s.trace ++ [.sent (.publish tn mt md)] }) := by
    simp [handle_call_tool, opText, opPublishMessage, h1, h2, h3, log]
  have htr : (handle_call_tool env "publish_message" args s).2.trace.drop s.trace.length
      = [Event.sent (.publish tn mt md)] := by
    rw [hh]
    simp [List.drop_left]
  refine ⟨hh, ?_, ?_⟩
  · intro pe
    rw [htr]
    simp
  · intro d
    rw [htr]
    simp

/-- Witness for the fire-and-forget publish at concrete arguments. -/
theorem publish_fire_and_forget_witness :
    lookupKey argsPub "topic_name" = some (.str "/cmd") ∧
    (handle_call_tool envEight "publish_message" argsPub ⟨[], []⟩ =
      (some [TextContent.mk "text" ("Published message to " ++ Val.render (.str "/cmd"))],
        { (⟨[], []⟩ : RosState) with
          trace := ([] : List Event) ++
            [.sent (.publish (.str "/cmd") (.str "std_msgs/String")
              (.obj [("data", .str "hi")]))] }) ∧
      (∀ pe : Envelope,
        Event.awaitedReply pe ∉
          (handle_call_tool envEight "publish_message" argsPub ⟨[], []⟩).2.trace.drop
            ([] : List Event).length) ∧
      ∀ d : Rat,
        Event.slept d ∉
          (handle_call_tool envEight "publish_message" argsPub ⟨[], []⟩).2.trace.drop
            ([] : List Event).length) :=
  ⟨rfl, publish_fire_and_forget envEight argsPub ⟨[], []⟩ (.str "/cmd")
    (.str "std_msgs/String") (.obj [("data", .str "hi")]) rfl rfl rfl⟩

/-- C6: set_param followed immediately by get_param on the same parameter
name (no intervening write) reports exactly the value just set: the set
branch overwrites the broker-side binding of the name and the get branch
reads the same binding back, for arbitrary broker environments and
starting states. -/
theorem set_then_get_param_round_trip
    (env1 env2 : RosEnv) (s : RosState) (args1 args2 : Args) (x v : Val)
    (h1 : lookupKey args1 "param_name" = some x)
    (h2 : lookupKey args1 "param_value" = some v)
    (h3 : lookupKey args2 "param_name" = some x) :
    (handle_call_tool env2 "get_param" args2
        (handle_call_tool env1 "set_param" args1 s).2).1 =
      some [TextContent.mk "text"
        ("Parameter " ++ x.render ++ " value: " ++ v.render)] := by
  have hset : (handle_call_tool env1 "set_param" args1 s).2 =
      { s with
        params := setStore s.params x.render v,
        trace := s.trace ++
          [.sent (.setParamReq x v), .awaitedReply (.setParamReq x v)] } := by
    simp [handle_call_tool, opText, opSetParam, h1, h2, exchange, log]
  rw [hset]
  simp [handle_call_tool, opText, opGetParam, h3, lookupKey_setStore]

/-- Witness for the set/get round trip at name x and value 5. -/
theorem set_then_get_param_witness :
    lookupKey argsSetX "param_value" = some (.str "5") ∧
    (handle_call_tool envQuiet "get_param" argsGetX
        (handle_call_tool envQuiet "set_param" argsSetX ⟨[], []⟩).2).1 =
      some [TextContent.mk "text"
        ("Parameter " ++ Val.render (.str "x") ++ " value: " ++ Val.render (.str "5"))] :=
  ⟨rfl, set_then_get_param_round_trip envQuiet envQuiet ⟨[], []⟩ argsSetX argsGetX
    (.str "x") (.str "5") rfl rfl rfl⟩

/-- Resolving some other identifier leaves the slot of i untouched. -/
theorem slotOf_resolveEntry_ne (t : CorrTable) (i j : Nat) (v : Val) (h : i ≠ j) :
    slotOf (resolveEntry t j v) i = slotOf t i := by
  induction t with
  | nil => rfl
  | cons e rest ih =>
    rcases e with ⟨i0, slot⟩
    by_cases h0 : i0 = j
    · subst h0
      simp only [resolveEntry, if_pos rfl, slotOf]
      rw [if_neg (fun hh => h hh.symm), if_neg (fun hh => h hh.symm)]
    · simp only [resolveEntry, if_neg h0, slotOf]
      by_cases h1 : i0 = i
      · simp [h1]
      · simp [h1, ih]

/-- Resolving an outstanding empty slot fills it with the payload. -/
theorem slotOf_resolveEntry_self (t : CorrTable) (i : Nat) (v : Val)
    (h : slotOf t i = some none) :
    slotOf (resolveEntry t i v) i = some (some v) := by
  induction t with
  | nil => simp [slotOf] at h
  | cons e rest ih =>
    rcases e with ⟨i0, slot⟩
    by_cases h0 : i0 = i
    · subst h0
      simp only [slotOf, eq_self_iff_true, if_true, Option.some_inj] at h
      subst h
      simp [resolveEntry, slotOf, fillSlot]
    · simp only [slotOf, if_neg h0] at h
      simp [resolveEntry, slotOf, h0, ih h]

/-- A filled slot is stable under any further resolution. -/
theorem slotOf_resolveEntry_filled (t : CorrTable) (i j : Nat) (v w : Val)
    (h : slotOf t i = some (some w)) :
    slotOf (resolveEntry t j v) i = some (some w) := by
  by_cases hij : i = j
  · subst hij
    induction t with
    | nil => simp [slotOf] at h
    | cons e rest ih =>
      rcases e with ⟨i0, slot⟩
      by_cases h0 : i0 = i
      · subst h0
        simp only [slotOf, eq_self_iff_true, if_true, Option.some_inj] at h
        subst h
        simp [resolveEntry, slotOf, fillSlot]
      · simp only [slotOf, if_neg h0] at h
        simp [resolveEntry, slotOf, h0, ih h]
  · rw [slotOf_resolveEntry_ne t i j v hij]
    exact h

/-- A filled slot is stable under the delivery of any response batch. -/
theorem slotOf_deliver_filled (resps : List (Nat × Val)) (t : CorrTable)
    (i : Nat) (w : Val) (h : slotOf t i = some (some w)) :
    slotOf (deliver t resps) i = some (some w) := by
  induction resps generalizing t with
  | nil => exact h
  | cons r rest ih =>
    exact ih _ (slotOf_resolveEntry_filled t i r.1 r.2 w h)

/-- Every freshly registered identifier has an empty slot. -/
theorem slotOf_mkPending (ids : List Nat) (i : Nat) (h : i ∈ ids) :
    slotOf (mkPending ids) i = some none := by
  induction ids with
  | nil => cases h
  | cons j rest ih =>
    by_cases h0 : j = i
    · simp [mkPending, slotOf, h0]
    · rcases List.mem_cons.mp h with h1 | h1
      · exact absurd h1.symm h0
      · show slotOf ((j, none) :: mkPending rest) i = some none
        simp only [slotOf, if_neg h0]
        exact ih h1

/-- Delivering the responses of pairwise distinct identifiers, in any
order containing i, fills the slot of i with exactly its own payload. -/
theorem slotOf_deliver_nodup (resp : Nat → Val) :
    ∀ (arr : List Nat) (t : CorrTable) (i : Nat), arr.Nodup → i ∈ arr →
      slotOf t i = some none →
      slotOf (deliver t (arr.map (fun j => (j, resp j)))) i = some (some (resp i)) := by
  intro arr
  induction arr with
  | nil =>
    intro t i _ hi _
    cases hi
  | cons j rest ih =>
    intro t i hnd hi hslot
    rcases List.mem_cons.mp hi with h1 | h1
    · subst h1
      have hstep : deliver t ((i :: rest).map (fun j => (j, resp j))) =
          deliver (resolveEntry t i (resp i)) (rest.map (fun j => (j, resp j))) := rfl
      rw [hstep]
      exact slotOf_deliver_filled _ _ _ _
        (slotOf_resolveEntry_self t i (resp i) hslot)
    · have hne : i ≠ j := by
        intro hij
        subst hij
        exact (List.nodup_cons.mp hnd).1 h1
      exact ih (resolveEntry t j (resp j)) i (List.nodup_cons.mp hnd).2 h1
        ((slotOf_resolveEntry_ne t i j (resp j) hne).trans hslot)

/-- C4: identifier-exact correlation — for any collection of outstanding
request identifiers (pairwise distinct, as the Correlation Table
invariant of the spec requires) and any arrival order of the broker
responses (any permutation of those identifiers), the slot of each
caller ends up holding exactly the payload carrying its own identifier,
never the payload of another caller, regardless of the interleaving. -/
theorem call_service_correlation_identifier_exact
    (ids : List Nat) (hnd : ids.Nodup) (resp : Nat → Val) (arr : List Nat)
    (hperm : arr.Perm ids) (i : Nat) (hi : i ∈ ids) :
    slotOf (deliver (mkPending ids) (arr.map (fun j => (j, resp j)))) i =
      some (some (resp i)) := by
  have harrnd : arr.Nodup := hperm.nodup_iff.mpr hnd
  have hiarr : i ∈ arr := hperm.mem_iff.mpr hi
  exact slotOf_deliver_nodup resp arr (mkPending ids) i harrnd hiarr
    (slotOf_mkPending ids i hi)

/-- Witness for identifier-exact correlation: three concurrent calls with
identifiers 1, 2, 3 whose responses arrive in the order 3, 1, 2. -/
theorem call_service_correlation_witness :
    ([3, 1, 2] : List Nat).Perm [1, 2, 3] ∧
    slotOf (deliver (mkPending [1, 2, 3])
        (([3, 1, 2] : List Nat).map (fun j => (j, Val.num (j : Rat))))) 2 =
      some (some (Val.num ((2 : Nat) : Rat))) :=
  ⟨by decide, call_service_correlation_identifier_exact [1, 2, 3] (by decide)
    (fun j => Val.num (j : Rat)) [3, 1, 2] (by decide) 2 (by decide)⟩

/-- C7: a supported operation invoked with an argument dictionary missing
one of its required arguments fails before any network interaction: the
result is the uniform error text for the KeyError naming a missing
required key, and the returned state is exactly the input state — no
envelope was handed to the connection and nothing was awaited. -/
theorem missing_required_arg_fails_before_network
    (env : RosEnv) (args : Args) (s : RosState) (name : String)
    (hname : name ∈ supportedOps)
    (hmiss : ∃ k ∈ requiredArgs name, lookupKey args k = none) :
    ∃ k ∈ requiredArgs name, lookupKey args k = none ∧
      handle_call_tool env name args s =
        (some [TextContent.mk "text"
          ("Error executing " ++ name ++ ": \x27" ++ k ++ "\x27")], s) := by
  simp only [supportedOps] at hname
  fin_cases hname
  · simp [requiredArgs] at hmiss
  · obtain ⟨k, hk, hknone⟩ := hmiss
    simp only [requiredArgs, List.mem_singleton] at hk
    subst hk
    exact ⟨"topic_name", by simp [requiredArgs], hknone, by
      simp [handle_call_tool, opText, opGetTopicInfo, hknone, RosError.msg]⟩
  · rcases h1 : lookupKey args "topic_name" with _ | tn
    · exact ⟨"topic_name", by simp [requiredArgs], h1, by
        simp [handle_call_tool, opText, opPublishMessage, h1, RosError.msg]⟩
    rcases h2 : lookupKey args "message_type" with _ | mt
    · exact ⟨"message_type", by simp [requiredArgs], h2, by
        simp [handle_call_tool, opText, opPublishMessage, h1, h2, RosError.msg]⟩
    rcases h3 : lookupKey args "message_data" with _ | md
    · exact ⟨"message_data", by simp [requiredArgs], h3, by
        simp [handle_call_tool, opText, opPublishMessage, h1, h2, h3, RosError.msg]⟩
    obtain ⟨k, hk, hknone⟩ := hmiss
    simp only [requiredArgs, List.mem_cons, List.mem_singleton,
      List.not_mem_nil, or_false] at hk
    rcases hk with hk | hk | hk <;> subst hk <;> simp_all
  · simp [requiredArgs] at hmiss
  · obtain ⟨k, hk, hknone⟩ := hmiss
    simp only [requiredArgs, List.mem_singleton] at hk
    subst hk
    exact ⟨"node_name", by simp [requiredArgs], hknone, by
      simp [handle_call_tool, opText, opGetNodeInfo, hknone, RosError.msg]⟩
  · simp [requiredArgs] at hmiss
  · obtain ⟨k, hk, hknone⟩ := hmiss
    simp only [requiredArgs, List.mem_singleton] at hk
    subst hk
    exact ⟨"service_name", by simp [requiredArgs], hknone, by
      simp [handle_call_tool, opText, opGetServiceInfo, hknone, RosError.msg]⟩
  · rcases h1 : lookupKey args "service_name" with _ | sn
    · exact ⟨"service_name", by simp [requiredArgs], h1, by
        simp [handle_call_tool, opText, opCallService, h1, RosError.msg]⟩
    rcases h2 : lookupKey args "service_type" with _ | st
    · exact ⟨"service_type", by simp [requiredArgs], h2, by
        simp [handle_call_tool, opText, opCallService, h1, h2, RosError.msg]⟩
    rcases h3 : lookupKey args "service_args" with _ | sa
    · exact ⟨"service_args", by simp [requiredArgs], h3, by
        simp [handle_call_tool, opText, opCallService, h1, h2, h3, RosError.msg]⟩
    obtain ⟨k, hk, hknone⟩ := hmiss
    simp only [requiredArgs, List.mem_cons, List.mem_singleton,
      List.not_mem_nil, or_false] at hk
    rcases hk with hk | hk | hk <;> subst hk <;> simp_all
  · obtain ⟨k, hk, hknone⟩ := hmiss
    simp only [requiredArgs, List.mem_singleton] at hk
    subst hk
    exact ⟨"param_name", by simp [requiredArgs], hknone, by
      simp [handle_call_tool, opText, opGetParam, hknone, RosError.msg]⟩
  · rcases h1 : lookupKey args "param_name" with _ | pn
    · exact ⟨"param_name", by simp [requiredArgs], h1, by
        simp [handle_call_tool, opText, opSetParam, h1, RosError.msg]⟩
    rcases h2 : lookupKey args "param_value" with _ | pv
    · exact ⟨"param_value", by simp [requiredArgs], h2, by
        simp [handle_call_tool, opText, opSetParam, h1, h2, RosError.msg]⟩
    obtain ⟨k, hk, hknone⟩ := hmiss
    simp only [requiredArgs, List.mem_cons, List.mem_singleton,
      List.not_mem_nil, or_false] at hk
    rcases hk with hk | hk <;> subst hk <;> simp_all
  · simp [requiredArgs] at hmiss
  · obtain ⟨k, hk, hknone⟩ := hmiss
    simp only [requiredArgs, List.mem_singleton] at hk
    subst hk
    exact ⟨"topic_name", by simp [requiredArgs], hknone, by
      simp [handle_call_tool, opText, opSubscribeTopic, hknone, RosError.msg]⟩

/-- Witness for the missing-argument failure: publish_message with an
empty argument dictionary. -/
theorem missing_required_arg_witness :
    "publish_message" ∈ supportedOps ∧
    (∃ k ∈ requiredArgs "publish_message", lookupKey [] k = none) ∧
    ∃ k ∈ requiredArgs "publish_message", lookupKey [] k = none ∧
      handle_call_tool envEight "publish_message" [] ⟨[], []⟩ =
        (some [TextContent.mk "text"
          ("Error executing " ++ "publish_message" ++ ": \x27" ++ k ++ "\x27")],
          ⟨[], []⟩) :=
  ⟨by decide, ⟨"topic_name", by simp [requiredArgs], rfl⟩,
    missing_required_arg_fails_before_network envEight [] ⟨[], []⟩ "publish_message"
      (by decide) ⟨"topic_name", by simp [requiredArgs], rfl⟩⟩

end RosMcp
